import Mathlib

/-!
Verification development for the azure-sdk-for-python client code.

Shallow embedding of the hand-written client logic of this repository:
the Avro schema-registry encoder
(sdk/schemaregistry/.../avroencoder/_schema_registry_avro_encoder.py),
the async datalake FileSystemClient
(sdk/storage/azure-storage-file-datalake/.../aio/_file_system_client_async.py),
the ApplicationInsights management client
(sdk/applicationinsights/.../v2018_05_01_preview/_application_insights_management_client.py),
and a spec-level model of the text-analytics analyze-actions workflow whose
client implementation lives outside the repository slice (only its tests are
present, in sdk/textanalytics/azure-ai-textanalytics/tests/test_analyze.py).

Python exceptions are modelled as values of an error type carried in
Except; mutation is modelled by explicit state passing; for the one
frame-effect property about object identity a small heap of request objects
is used.
-/

namespace AzureSDK

/-- Python exception values that the embedded code can surface.
typeError is an error of local origin (raised by a raise statement in this
repository); httpResponseError is the typed exception the external HTTP
pipeline produces from a service response; invalidSchemaError is raised by
the avro validation helper. -/
inductive PyError where
  | typeError (msg : String)
  | httpResponseError (statusCode : Nat) (msg : String)
  | invalidSchemaError (msg : String)
  deriving DecidableEq, Repr

/-- True exactly for errors raised locally by code of this repository,
as opposed to typed exceptions produced by the external HTTP pipeline. -/
def PyError.isLocalOrigin : PyError → Bool
  | .typeError _ => true
  | .httpResponseError _ _ => false
  | .invalidSchemaError _ => false

/-! ## Schema registry service model

The SchemaRegistryClient itself is outside the embedded slice; its two
operations used by the encoder are modelled as state transformers over the
registry state, each counting the service round trips it performs. -/

/-- State of the remote schema registry together with the number of service
requests made through the schema registry client. A schema is keyed by
(group, name, definition) and mapped to its schema id. -/
structure RegistryState where
  registered : List ((String × String × String) × String)
  nextId : Nat
  callCount : Nat
  deriving DecidableEq, Repr

/-- Look up a registered schema id by (group, name, definition). -/
def RegistryState.find (st : RegistryState) (group name defn : String) :
    Option String :=
  (st.registered.find? (fun e => e.1 = (group, name, defn))).map (·.2)

/-- Model of SchemaRegistryClient.register_schema: performs a service round
trip; registers the schema when new and returns its id (the service returns
the existing id for an already-registered schema). -/
def registerSchema (st : RegistryState) (group name defn : String) :
    Except PyError String × RegistryState :=
  let st1 : RegistryState := { st with callCount := st.callCount + 1 }
  match st.find group name defn with
  | some sid => (.ok sid, st1)
  | none =>
      let sid := toString st.nextId
      (.ok sid,
        { st1 with
          registered := ((group, name, defn), sid) :: st1.registered,
          nextId := st1.nextId + 1 })

/-- Model of SchemaRegistryClient.get_schema_properties: performs a service
round trip; returns the id of an already-registered schema, and fails with
a typed pipeline exception (item not found) when the schema has not been
pre-registered. -/
def getSchemaProperties (st : RegistryState) (group name defn : String) :
    Except PyError String × RegistryState :=
  let st1 : RegistryState := { st with callCount := st.callCount + 1 }
  match st.find group name defn with
  | some sid => (.ok sid, st1)
  | none => (.error (.httpResponseError 404 "Item Not Found"), st1)

/-! ## AvroEncoder -/

/-- Which schema-resolution function the constructor picked for
self._auto_register_schema_func. -/
inductive SchemaResolveFunc where
  | registerSchemaFunc
  | getSchemaPropertiesFunc
  deriving DecidableEq, Repr

/-- Dispatch of self._auto_register_schema_func(group, name, defn, "Avro"). -/
def SchemaResolveFunc.apply (f : SchemaResolveFunc) (st : RegistryState)
    (group name defn : String) : Except PyError String × RegistryState :=
  match f with
  | .registerSchemaFunc => registerSchema st group name defn
  | .getSchemaPropertiesFunc => getSchemaProperties st group name defn

/-- The AvroEncoder instance state set up by __init__ (the fields the
embedded operations read). -/
structure AvroEncoder where
  schemaGroup : Option String
  autoRegister : Bool
  resolveFunc : SchemaResolveFunc
  deriving DecidableEq, Repr

/-- Keyword arguments accepted by AvroEncoder.__init__. client is modelled
only by its presence, since the embedded registry operations act on the
explicit RegistryState. -/
structure EncoderKwargs where
  client : Option Unit
  groupName : Option String
  autoRegister : Option Bool
  deriving DecidableEq, Repr

/-- Embedding of AvroEncoder.__init__: raises TypeError when the required
client keyword is missing, stores group_name (default None) and
auto_register (default False), and fixes _auto_register_schema_func to
register_schema when auto_register is true and to get_schema_properties
otherwise. -/
def AvroEncoder.init (kwargs : EncoderKwargs) : Except PyError AvroEncoder :=
  match kwargs.client with
  | none => .error (.typeError "client is a required keyword.")
  | some _ =>
      let autoReg := kwargs.autoRegister.getD false
      .ok
        { schemaGroup := kwargs.groupName
          autoRegister := autoReg
          resolveFunc :=
            if autoReg then .registerSchemaFunc else .getSchemaPropertiesFunc }

/-- Embedding of the body of AvroEncoder._get_schema_id before caching:
schema_id = self._auto_register_schema_func(self._schema_group, schema_name,
schema_str, "Avro").id. The group argument passed is the stored group
(None is only reachable through decode paths; encode guards it first, and
_get_schema_id is called with the stored group string). -/
def AvroEncoder.getSchemaIdRaw (enc : AvroEncoder) (group : String)
    (st : RegistryState) (schemaName schemaStr : String) :
    Except PyError String × RegistryState :=
  enc.resolveFunc.apply st group schemaName schemaStr

/-! ## functools.lru_cache model

Both _get_schema_id and _get_schema carry an lru_cache(maxsize=128)
decorator. The cache is an association list in most-recently-used-first
order; a hit moves the entry to the front, a miss computes, caches the
successful result and evicts beyond maxsize. Exceptions are not cached,
matching functools.lru_cache. -/

/-- An LRU cache over keys κ: entries in most-recently-used-first order. -/
structure LruCache (κ ν : Type) where
  entries : List (κ × ν)
  maxsize : Nat
  deriving DecidableEq, Repr

/-- Cache lookup without reordering. -/
def LruCache.find {κ ν : Type} [DecidableEq κ] (c : LruCache κ ν) (k : κ) :
    Option ν :=
  (c.entries.find? (fun e => e.1 = k)).map (·.2)

/-- Move the entry for k (with value v) to the front on a hit. -/
def LruCache.touch {κ ν : Type} [DecidableEq κ] (c : LruCache κ ν) (k : κ)
    (v : ν) : LruCache κ ν :=
  { c with entries := (k, v) :: c.entries.filter (fun e => ¬ e.1 = k) }

/-- Insert a freshly computed entry, evicting the least recently used
entries beyond maxsize. -/
def LruCache.insert {κ ν : Type} [DecidableEq κ] (c : LruCache κ ν) (k : κ)
    (v : ν) : LruCache κ ν :=
  { c with entries := ((k, v) :: c.entries.filter (fun e => ¬ e.1 = k)).take c.maxsize }

/-- The maxsize functools.lru_cache is instantiated with in the source. -/
def avroCacheMaxsize : Nat := 128

/-- Embedding of the lru_cache(maxsize=128)-decorated _get_schema_id: on a
cache hit return the cached id without touching the registry; on a miss
call the resolution function fixed at construction and cache a successful
result. -/
def AvroEncoder.getSchemaId (enc : AvroEncoder) (group : String)
    (cache : LruCache (String × String) String) (st : RegistryState)
    (schemaName schemaStr : String) :
    Except PyError String × LruCache (String × String) String × RegistryState :=
  match cache.find (schemaName, schemaStr) with
  | some sid => (.ok sid, cache.touch (schemaName, schemaStr) sid, st)
  | none =>
      match enc.getSchemaIdRaw group st schemaName schemaStr with
      | (.ok sid, st1) => (.ok sid, cache.insert (schemaName, schemaStr) sid, st1)
      | (.error e, st1) => (.error e, cache, st1)

/-- Look up the definition of a registered schema by its id. -/
def RegistryState.findById (st : RegistryState) (sid : String) : Option String :=
  (st.registered.find? (fun e => e.2 = sid)).map (fun e => e.1.2.2)

/-- Model of SchemaRegistryClient.get_schema: performs a service round
trip; returns the definition of the schema with the given id, failing with
a typed pipeline exception when the id is unknown. -/
def getSchemaById (st : RegistryState) (sid : String) :
    Except PyError String × RegistryState :=
  let st1 : RegistryState := { st with callCount := st.callCount + 1 }
  match st.findById sid with
  | some defn => (.ok defn, st1)
  | none => (.error (.httpResponseError 404 "Item Not Found"), st1)

/-- Embedding of the lru_cache(maxsize=128)-decorated _get_schema: on a
cache hit return the cached definition without touching the registry; on
a miss call self._schema_registry_client.get_schema and cache a successful
result. -/
def AvroEncoder.getSchema (_enc : AvroEncoder)
    (cache : LruCache String String) (st : RegistryState) (sid : String) :
    Except PyError String × LruCache String String × RegistryState :=
  match cache.find sid with
  | some defn => (.ok defn, cache.touch sid defn, st)
  | none =>
      match getSchemaById st sid with
      | (.ok defn, st1) => (.ok defn, cache.insert sid defn, st1)
      | (.error e, st1) => (.error e, cache, st1)

/-- Message content assembled by the create_message_content helper:
the Avro-encoded payload and the content type built from the Avro mime type
and the schema id. -/
structure MessageContent where
  content : String
  contentType : String
  deriving DecidableEq, Repr

/-- Avro mime type constant used in the content type value. -/
def avroMimeType : String := "avro/binary"

/-- Python falsiness of the stored Optional[str] group: None and the empty
string are both falsy, so `if not self._schema_group` fires on either. -/
def optStrFalsy : Option String → Bool
  | none => true
  | some s => s = ""

/-- Embedding of AvroEncoder.encode. The validate argument stands for the
imported validate_schema helper (returns the schema fullname or raises
InvalidSchemaError) and avroEncode for the Apache Avro binary encoding of
the content; both live outside the embedded slice. The method first raises
a local TypeError when the stored group_name is falsy, then validates the
schema, resolves the schema id through the cached _get_schema_id, and
assembles the message content. -/
def AvroEncoder.encode (enc : AvroEncoder)
    (validate : String → Except PyError String)
    (avroEncode : String → String)
    (content : String) (schema : String)
    (cache : LruCache (String × String) String) (st : RegistryState) :
    Except PyError MessageContent × LruCache (String × String) String × RegistryState :=
  if optStrFalsy enc.schemaGroup then
    (.error (.typeError "group_name in constructor cannot be None, if encoding."),
      cache, st)
  else
    match validate schema with
    | .error e => (.error e, cache, st)
    | .ok fullname =>
        let group := enc.schemaGroup.getD ""
        match enc.getSchemaId group cache st fullname schema with
        | (.ok sid, c1, st1) =>
            (.ok { content := avroEncode content,
                   contentType := avroMimeType ++ "+" ++ sid }, c1, st1)
        | (.error e, c1, st1) => (.error e, c1, st1)

/-! ## Async datalake FileSystemClient

Embedding of sdk/storage/azure-storage-file-datalake/.../aio/
_file_system_client_async.py. The underlying ContainerClient and the
generated AzureDataLakeStorageRESTAPI operation groups are external
collaborators; they are modelled as records of operation functions
(oracles) carried by the client, so that delegation is literally a call
into the oracle. -/

/-- Remaining keyword arguments of an operation after the named ones are
popped, as an association list. -/
abbrev Kwargs := List (String × String)

/-- Metadata dict with name-value pairs. -/
abbrev Metadata := List (String × String)

/-- Public access levels of the datalake model layer. -/
inductive PublicAccess where
  | fileSystem
  | file
  deriving DecidableEq, Repr

/-- Modelled from the spec: PublicAccess._from_generated (in _models.py,
outside the embedded slice) is a model conversion of the generated public
access value into the datalake PublicAccess enum. -/
def PublicAccess.fromGenerated : Option String → Option PublicAccess
  | some "container" => some .fileSystem
  | some "blob" => some .file
  | _ => none

/-- Container properties as returned by the blob ContainerClient. -/
structure ContainerProperties where
  name : String
  metadata : Metadata
  etag : String
  lastModified : String
  publicAccessRaw : Option String
  deriving DecidableEq, Repr

/-- File system properties of the datalake model layer. -/
structure FileSystemProperties where
  name : String
  metadata : Metadata
  etag : String
  lastModified : String
  publicAccessRaw : Option String
  deriving DecidableEq, Repr

/-- Modelled from the spec: FileSystemProperties._convert_from_container_props
(in _models.py, outside the embedded slice) is a model conversion carrying
the container properties over to FileSystemProperties field by field. -/
def FileSystemProperties.convertFromContainerProps (p : ContainerProperties) :
    FileSystemProperties :=
  { name := p.name, metadata := p.metadata, etag := p.etag,
    lastModified := p.lastModified, publicAccessRaw := p.publicAccessRaw }

/-- Updated-property dict (Etag and last modified) returned by mutating
container operations. -/
structure PropsDict where
  etag : String
  lastModified : String
  deriving DecidableEq, Repr

/-- Signed identifiers dict mapping policy names to access policy strings. -/
abbrev SignedIdentifiers := List (String × String)

/-- Raw result of ContainerClient.get_container_access_policy. -/
structure AccessPolicyRaw where
  publicAccessRaw : Option String
  signedIdentifiers : SignedIdentifiers
  deriving DecidableEq, Repr

/-- Result dict built by get_file_system_access_policy. -/
structure FileSystemAccessPolicy where
  publicAccess : Option PublicAccess
  signedIdentifiers : SignedIdentifiers
  deriving DecidableEq, Repr

/-- Oracle for the underlying blob ContainerClient operations the
FileSystemClient delegates to. Each operation may fail with a typed
pipeline exception. -/
structure ContainerClientOps where
  create_container : Option Metadata → Option PublicAccess → Kwargs → Except PyError PropsDict
  delete_container : Kwargs → Except PyError Unit
  exists_container : Kwargs → Except PyError Bool
  get_container_properties : Kwargs → Except PyError ContainerProperties
  set_container_metadata : Option Metadata → Kwargs → Except PyError PropsDict
  set_container_access_policy : SignedIdentifiers → Option PublicAccess → Kwargs → Except PyError PropsDict
  get_container_access_policy : Kwargs → Except PyError AccessPolicyRaw

/-- Opaque page segment returned by the generated list operations. -/
structure PathsSegment where
  raw : Nat
  deriving DecidableEq, Repr

/-- Oracle for the generated AzureDataLakeStorageRESTAPI file_system
operation group. list_paths takes (path, timeout, residual kwargs);
list_blob_hierarchy_segment takes (showonly, timeout, residual kwargs). -/
structure GeneratedFileSystemOps where
  list_paths : Option String → Option Nat → Kwargs → Except PyError PathsSegment
  list_blob_hierarchy_segment : String → Option Nat → Kwargs → Except PyError PathsSegment

/-- The ListBlobsIncludeItem.deleted constant passed as showonly. -/
def listBlobsIncludeDeleted : String := "deleted"

/-- Retry configuration keywords read by ExponentialRetry. -/
structure RetryConfig where
  initialBackoff : Option Nat
  incrementBase : Option Nat
  retryTotal : Option Nat
  deriving DecidableEq, Repr

/-- A retry policy value: either an ExponentialRetry built from the
constructor kwargs, or some caller-supplied policy object. -/
inductive RetryPolicy where
  | exponentialRetry (cfg : RetryConfig)
  | custom (id : Nat)
  deriving DecidableEq, Repr

/-- HTTP transports: a concrete transport, or an AsyncTransportWrapper
sharing the wrapped transport. -/
inductive Transport where
  | base (id : Nat)
  | wrap (t : Transport)
  deriving DecidableEq, Repr

/-- The concrete transport a (possibly wrapped) transport ultimately uses. -/
def Transport.core : Transport → Transport
  | .base i => .base i
  | .wrap t => t.core

/-- A policy stage of the HTTP pipeline. -/
inductive Policy where
  | retry (p : RetryPolicy)
  | other (name : String)
  deriving DecidableEq, Repr

/-- The HTTP pipeline: a transport plus policy stages. -/
structure Pipeline where
  transport : Transport
  policies : List Policy
  deriving DecidableEq, Repr

/-- Keyword arguments of FileSystemClient.__init__ that the embedded code
reads. -/
structure InitKwargs where
  retry_policy : Option RetryPolicy
  api_version : Option String
  retryConfig : RetryConfig
  deriving DecidableEq, Repr

/-- Default storage service API version of this SDK build. -/
def defaultApiVersion : String := "2020-10-02"

/-- Modelled from the spec: get_api_version (in _serialize.py, outside the
embedded slice) resolves the api_version keyword argument, defaulting to
the most recent compatible service version. -/
def get_api_version (kwargs : InitKwargs) : String :=
  kwargs.api_version.getD defaultApiVersion

/-- A generated AzureDataLakeStorageRESTAPI client instance: its URL, the
file system it is bound to, the shared pipeline, and its mutable config
version field. -/
structure GeneratedClient where
  url : String
  fileSystem : String
  pipeline : Pipeline
  configVersion : String
  deriving DecidableEq, Repr

/-- Modelled from the spec: the storage base-class __init__ (shared
base_client_async, outside the embedded slice) derives the client URL from
the account URL and file system name, stores the raw credential, and
assembles the HTTP pipeline whose policy stages include the retry policy
passed in kwargs together with auth and logging stages. -/
structure BaseClientState where
  url : String
  pipeline : Pipeline
  hosts : List (String × String)
  rawCredential : Option String
  deriving DecidableEq, Repr

/-- Modelled from the spec: base-class construction of the pipeline and
account state (see BaseClientState). -/
def baseClientInit (transport : Transport) (accountUrl fsName : String)
    (credential : Option String) (retry : RetryPolicy) : BaseClientState :=
  { url := accountUrl ++ "/" ++ fsName
    pipeline :=
      { transport := transport
        policies := [Policy.retry retry, Policy.other "auth", Policy.other "logging"] }
    hosts := [("primary", accountUrl)]
    rawCredential := credential }

/-- The async datalake FileSystemClient instance state. containerClient,
clientFsOps and datalakeBlobFsOps are the external operation oracles the
methods delegate to. -/
structure FileSystemClient where
  containerClient : ContainerClientOps
  clientFsOps : GeneratedFileSystemOps
  datalakeBlobFsOps : GeneratedFileSystemOps
  url : String
  fileSystemName : String
  rawCredential : Option String
  apiVersion : String
  pipeline : Pipeline
  hosts : List (String × String)
  client : GeneratedClient
  datalakeClientForBlobOperation : GeneratedClient

/-- Embedding of FileSystemClient.__init__: installs
kwargs.get(retry_policy) or ExponentialRetry(**kwargs) as the retry
policy, runs the base-class initialization, rebuilds the container client,
constructs the two generated REST clients over the shared pipeline, and
applies get_api_version(kwargs) to both generated clients config.version
fields. -/
def FileSystemClient.init (containerOps : ContainerClientOps)
    (clientFsOps datalakeBlobFsOps : GeneratedFileSystemOps)
    (transport : Transport) (accountUrl fsName : String)
    (credential : Option String) (kwargs : InitKwargs) : FileSystemClient :=
  let retry := kwargs.retry_policy.getD (.exponentialRetry kwargs.retryConfig)
  let base := baseClientInit transport accountUrl fsName credential retry
  let apiVersion := get_api_version kwargs
  { containerClient := containerOps
    clientFsOps := clientFsOps
    datalakeBlobFsOps := datalakeBlobFsOps
    url := base.url
    fileSystemName := fsName
    rawCredential := base.rawCredential
    apiVersion := apiVersion
    pipeline := base.pipeline
    hosts := base.hosts
    client :=
      { url := base.url, fileSystem := fsName, pipeline := base.pipeline,
        configVersion := apiVersion }
    datalakeClientForBlobOperation :=
      { url := base.url, fileSystem := fsName, pipeline := base.pipeline,
        configVersion := apiVersion } }

/-! ### Public operations (embedded from the source method bodies) -/

/-- Embedding of create_file_system: returns
await self._container_client.create_container(metadata, public_access,
**kwargs). -/
def FileSystemClient.create_file_system (c : FileSystemClient)
    (metadata : Option Metadata) (publicAccess : Option PublicAccess)
    (kwargs : Kwargs) : Except PyError PropsDict :=
  c.containerClient.create_container metadata publicAccess kwargs

/-- Embedding of delete_file_system: returns
await self._container_client.delete_container(**kwargs). -/
def FileSystemClient.delete_file_system (c : FileSystemClient)
    (kwargs : Kwargs) : Except PyError Unit :=
  c.containerClient.delete_container kwargs

/-- Embedding of exists (named fs_exists since exists is reserved in Lean):
returns await self._container_client.exists(**kwargs). -/
def FileSystemClient.fs_exists (c : FileSystemClient) (kwargs : Kwargs) :
    Except PyError Bool :=
  c.containerClient.exists_container kwargs

/-- Embedding of get_file_system_properties: awaits
get_container_properties and converts the result with
FileSystemProperties._convert_from_container_props. -/
def FileSystemClient.get_file_system_properties (c : FileSystemClient)
    (kwargs : Kwargs) : Except PyError FileSystemProperties :=
  match c.containerClient.get_container_properties kwargs with
  | .error e => .error e
  | .ok props => .ok (FileSystemProperties.convertFromContainerProps props)

/-- Embedding of set_file_system_metadata: returns
await self._container_client.set_container_metadata(metadata, **kwargs). -/
def FileSystemClient.set_file_system_metadata (c : FileSystemClient)
    (metadata : Option Metadata) (kwargs : Kwargs) : Except PyError PropsDict :=
  c.containerClient.set_container_metadata metadata kwargs

/-- Embedding of set_file_system_access_policy: returns
await self._container_client.set_container_access_policy(signed_identifiers,
public_access, **kwargs). -/
def FileSystemClient.set_file_system_access_policy (c : FileSystemClient)
    (signedIdentifiers : SignedIdentifiers)
    (publicAccess : Option PublicAccess) (kwargs : Kwargs) :
    Except PyError PropsDict :=
  c.containerClient.set_container_access_policy signedIdentifiers publicAccess kwargs

/-- Embedding of get_file_system_access_policy: awaits
get_container_access_policy and builds the result dict with
PublicAccess._from_generated on the public_access entry and the signed
identifiers passed through. -/
def FileSystemClient.get_file_system_access_policy (c : FileSystemClient)
    (kwargs : Kwargs) : Except PyError FileSystemAccessPolicy :=
  match c.containerClient.get_container_access_policy kwargs with
  | .error e => .error e
  | .ok ap =>
      .ok { publicAccess := PublicAccess.fromGenerated ap.publicAccessRaw
            signedIdentifiers := ap.signedIdentifiers }

/-- Keyword arguments of the paged operations before popping. prefixPath
models the source kwarg named path_pre fix (written here without the
underscore for lexical reasons). -/
structure PagedKwargs where
  timeout : Option Nat
  prefixPath : Option String
  resultsPerPage : Option Nat
  extra : Kwargs
  deriving DecidableEq, Repr

/-- The AsyncItemPaged value built by get_paths: the command closure over
the generated list_paths operation plus the paging parameters handed to
the external pager. -/
structure PathsPaged where
  command : Kwargs → Except PyError PathsSegment
  recursive : Bool
  path : Option String
  maxResults : Option Nat
  pageIteratorClass : String

/-- Embedding of get_paths: pops timeout, fixes the command as a closure
over self._client.file_system.list_paths with the given path, timeout and
residual kwargs, and returns the external AsyncItemPaged over it with
page_iterator_class PathPropertiesPaged. -/
def FileSystemClient.get_paths (c : FileSystemClient) (path : Option String)
    (recursive : Bool) (maxResults : Option Nat) (kwargs : PagedKwargs) :
    PathsPaged :=
  let timeout := kwargs.timeout
  { command := fun extra => c.clientFsOps.list_paths path timeout (kwargs.extra ++ extra)
    recursive := recursive
    path := path
    maxResults := maxResults
    pageIteratorClass := "PathPropertiesPaged" }

/-- The AsyncItemPaged value built by list_deleted_paths. -/
structure DeletedPathsPaged where
  command : Kwargs → Except PyError PathsSegment
  prefixPath : Option String
  resultsPerPage : Option Nat
  pageIteratorClass : String

/-- Embedding of list_deleted_paths: pops the path filter, timeout and
results_per_page, fixes the command as a closure over
self._datalake_client_for_blob_operation.file_system.list_blob_hierarchy_segment
with showonly=deleted, and returns the external AsyncItemPaged over it with
page_iterator_class DeletedPathPropertiesPaged. -/
def FileSystemClient.list_deleted_paths (c : FileSystemClient)
    (kwargs : PagedKwargs) : DeletedPathsPaged :=
  let timeout := kwargs.timeout
  { command := fun extra =>
      c.datalakeBlobFsOps.list_blob_hierarchy_segment listBlobsIncludeDeleted
        timeout (kwargs.extra ++ extra)
    prefixPath := kwargs.prefixPath
    resultsPerPage := kwargs.resultsPerPage
    pageIteratorClass := "DeletedPathPropertiesPaged" }

/-! ### Child clients (get_file_client / get_directory_client) -/

/-- Input accepted by get_file_client and get_directory_client: either a
properties object supporting the .get accessor for its name, or a plain
string path. -/
inductive PathInput where
  | props (name : String)
  | str (s : String)
  deriving DecidableEq, Repr

/-- Embedding of the try/except name resolution in both methods: try
input.get, and on AttributeError fall back to str(input). -/
def PathInput.resolveName : PathInput → String
  | .props n => n
  | .str s => s

/-- Record of the constructor arguments the parent passes when building a
DataLakeFileClient or DataLakeDirectoryClient (the constructors themselves
are outside the embedded slice). -/
structure ChildClientArgs where
  url : String
  fileSystemName : String
  targetName : String
  credential : Option String
  apiVersion : String
  pipeline : Pipeline
  hosts : List (String × String)
  deriving DecidableEq, Repr

/-- Embedding of get_file_client: resolves the target name, builds a fresh
AsyncPipeline over an AsyncTransportWrapper of the parent transport with
the parent policy stages, and constructs the child from the parent fields.
The second component is the list of service requests the call performs. -/
def FileSystemClient.get_file_client (c : FileSystemClient)
    (input : PathInput) : ChildClientArgs × List String :=
  let name := input.resolveName
  let pl : Pipeline :=
    { transport := Transport.wrap c.pipeline.transport
      policies := c.pipeline.policies }
  ({ url := c.url, fileSystemName := c.fileSystemName, targetName := name,
     credential := c.rawCredential, apiVersion := c.apiVersion,
     pipeline := pl, hosts := c.hosts }, [])

/-- Embedding of get_directory_client: identical construction with the
directory name resolved the same way. -/
def FileSystemClient.get_directory_client (c : FileSystemClient)
    (input : PathInput) : ChildClientArgs × List String :=
  let name := input.resolveName
  let pl : Pipeline :=
    { transport := Transport.wrap c.pipeline.transport
      policies := c.pipeline.policies }
  ({ url := c.url, fileSystemName := c.fileSystemName, targetName := name,
     credential := c.rawCredential, apiVersion := c.apiVersion,
     pipeline := pl, hosts := c.hosts }, [])

/-! ### Specification-side forms for the delegation claim

Each definition below states, in the words of the spec, what the
corresponding public operation should be: a delegation to the underlying
ContainerClient or generated REST operation with the same arguments,
composed only with a model conversion of the result. -/

/-- Spec form: create_file_system is create_container with the same
arguments. -/
def createFileSystemSpec (c : FileSystemClient) (m : Option Metadata)
    (p : Option PublicAccess) (k : Kwargs) : Except PyError PropsDict :=
  c.containerClient.create_container m p k

/-- Spec form: delete_file_system is delete_container with the same
arguments. -/
def deleteFileSystemSpec (c : FileSystemClient) (k : Kwargs) :
    Except PyError Unit :=
  c.containerClient.delete_container k

/-- Spec form: exists is ContainerClient.exists with the same arguments. -/
def existsSpec (c : FileSystemClient) (k : Kwargs) : Except PyError Bool :=
  c.containerClient.exists_container k

/-- Spec form: get_file_system_properties is get_container_properties
composed with the FileSystemProperties model conversion. -/
def getFileSystemPropertiesSpec (c : FileSystemClient) (k : Kwargs) :
    Except PyError FileSystemProperties :=
  (c.containerClient.get_container_properties k).map
    FileSystemProperties.convertFromContainerProps

/-- Spec form: set_file_system_metadata is set_container_metadata with the
same arguments. -/
def setFileSystemMetadataSpec (c : FileSystemClient) (m : Option Metadata)
    (k : Kwargs) : Except PyError PropsDict :=
  c.containerClient.set_container_metadata m k

/-- Spec form: set_file_system_access_policy is
set_container_access_policy with the same arguments. -/
def setFileSystemAccessPolicySpec (c : FileSystemClient)
    (si : SignedIdentifiers) (p : Option PublicAccess) (k : Kwargs) :
    Except PyError PropsDict :=
  c.containerClient.set_container_access_policy si p k

/-- Spec form: get_file_system_access_policy is
get_container_access_policy composed with the PublicAccess model
conversion on the public access entry. -/
def getFileSystemAccessPolicySpec (c : FileSystemClient) (k : Kwargs) :
    Except PyError FileSystemAccessPolicy :=
  (c.containerClient.get_container_access_policy k).map (fun ap =>
    { publicAccess := PublicAccess.fromGenerated ap.publicAccessRaw
      signedIdentifiers := ap.signedIdentifiers })

/-- Spec form: get_paths is the external pager over the generated
list_paths operation with the same arguments. -/
def getPathsSpec (c : FileSystemClient) (path : Option String)
    (recursive : Bool) (maxResults : Option Nat) (pk : PagedKwargs) :
    PathsPaged :=
  { command := fun extra => c.clientFsOps.list_paths path pk.timeout (pk.extra ++ extra)
    recursive := recursive
    path := path
    maxResults := maxResults
    pageIteratorClass := "PathPropertiesPaged" }

/-- Spec form: list_deleted_paths is the external pager over the generated
list_blob_hierarchy_segment operation restricted to deleted items, with
the same arguments. -/
def listDeletedPathsSpec (c : FileSystemClient) (pk : PagedKwargs) :
    DeletedPathsPaged :=
  { command := fun extra =>
      c.datalakeBlobFsOps.list_blob_hierarchy_segment "deleted" pk.timeout
        (pk.extra ++ extra)
    prefixPath := pk.prefixPath
    resultsPerPage := pk.resultsPerPage
    pageIteratorClass := "DeletedPathPropertiesPaged" }

/-! ## ApplicationInsightsManagementClient._send_request

The frame property is about Python object identity, so request objects
live on an explicit heap addressed by index; deepcopy allocates a fresh
cell and the url assignment mutates the addressed cell. -/

/-- An azure.core.rest.HttpRequest value. -/
structure HttpRequest where
  method : String
  url : String
  headers : List (String × String)
  body : String
  deriving DecidableEq, Repr

instance : Inhabited HttpRequest :=
  ⟨{ method := "GET", url := "", headers := [], body := "" }⟩

/-- Heap of request objects; an address is an index into the list. -/
abbrev RequestHeap := List HttpRequest

/-- copy.deepcopy: allocate a fresh cell holding the same value and return
its address. -/
def deepcopyRequest (h : RequestHeap) (addr : Nat) : RequestHeap × Nat :=
  (h ++ [h.getD addr default], h.length)

/-- request.url = u: mutate the url field of the addressed cell. -/
def setRequestUrl (h : RequestHeap) (addr : Nat) (u : String) : RequestHeap :=
  h.set addr { h.getD addr default with url := u }

/-- The ApplicationInsightsManagementClient pieces _send_request reads:
self._client.format_url and self._client.send_request of the external ARM
pipeline client. -/
structure AIMClient where
  formatUrl : String → String
  pipelineSend : HttpRequest → Nat

/-- Embedding of ApplicationInsightsManagementClient._send_request:
request_copy = deepcopy(request); request_copy.url =
self._client.format_url(request_copy.url); return
self._client.send_request(request_copy, **kwargs). Returns the heap after
the call, the pipeline response, and the address of the copy. -/
def AIMClient.send_request_op (c : AIMClient) (h : RequestHeap)
    (addr : Nat) : RequestHeap × Nat × Nat :=
  let hc := deepcopyRequest h addr
  let h2 := setRequestUrl hc.1 hc.2 (c.formatUrl ((hc.1.getD hc.2 default).url))
  (h2, c.pipelineSend (h2.getD hc.2 default), hc.2)

/-! ## Text analytics analyze-actions workflow

Modelled from the spec: begin_analyze_actions, its poller and the remote
analyze-actions batch job are implemented outside the repository slice
(the slice holds only their tests, in
sdk/textanalytics/azure-ai-textanalytics/tests/test_analyze.py). The model
below follows the spec (a submit-and-poll batch job behind an external
long-running-operation poller resumable from a continuation token) and the
behavior the cited tests document: at most 25 documents per request with a
400 HttpResponseError beyond that, one result list per document in
submission order, per-document action results in the order the actions
were supplied, and empty-text documents yielding is_error results. -/

/-- An input document for analysis. -/
structure TADocument where
  id : String
  text : String
  language : Option String
  deriving DecidableEq, Repr

/-- The requested analyze actions. -/
inductive TAAction where
  | recognizeEntities
  | recognizePiiEntities
  | analyzeSentiment
  | extractKeyPhrases
  | recognizeLinkedEntities
  | extractSummary
  deriving DecidableEq, Repr

/-- A per-document, per-action result: the document id, the error flag,
and on success the action type the result came from. -/
structure DocumentResult where
  id : String
  isError : Bool
  actionType : Option TAAction
  deriving DecidableEq, Repr

/-- Modelled from the spec: the remote service runs one action over one
document; an empty-text document yields an is_error result. -/
def runDocAction (d : TADocument) (a : TAAction) : DocumentResult :=
  if d.text = "" then { id := d.id, isError := true, actionType := none }
  else { id := d.id, isError := false, actionType := some a }

/-- Modelled from the spec: the completed job yields one list of document
results per input document in submission order, and within each list one
result per requested action in the order the actions were supplied. -/
def analyzeResults (docs : List TADocument) (acts : List TAAction) :
    List (List DocumentResult) :=
  docs.map (fun d => acts.map (runDocAction d))

/-- A submitted analyze-actions job. -/
structure AnalyzeJob where
  docs : List TADocument
  actions : List TAAction
  deriving DecidableEq, Repr

/-- Remote service state: the submitted jobs; a continuation token is the
index of the job it resumes. -/
structure TAServiceState where
  jobs : List AnalyzeJob
  deriving DecidableEq, Repr

/-- A poller handle; continuation_token() returns the job token. -/
structure AnalyzePoller where
  token : Nat
  deriving DecidableEq, Repr

/-- Maximum number of documents per request documented by the tests. -/
def maxDocumentsPerRequest : Nat := 25

/-- Modelled from the spec: begin_analyze_actions submits a batch job. A
request with more than the maximum number of documents fails with a
400 HttpResponseError; otherwise the job is recorded and a poller over it
returned. -/
def beginAnalyzeActions (st : TAServiceState) (docs : List TADocument)
    (acts : List TAAction) :
    Except PyError (AnalyzePoller × TAServiceState) :=
  if docs.length > maxDocumentsPerRequest then
    .error (.httpResponseError 400 "Batch request contains too many records.")
  else
    .ok ({ token := st.jobs.length },
         { jobs := st.jobs ++ [{ docs := docs, actions := acts }] })

/-- Modelled from the spec: begin_analyze_actions called with documents
and actions None and a continuation_token resumes the poller over the
already-submitted job the token names. -/
def beginAnalyzeActionsFromToken (tok : Nat) : AnalyzePoller :=
  { token := tok }

/-- Modelled from the spec: the completed poller result is the result of
the job its token names. -/
def pollerResult (st : TAServiceState) (p : AnalyzePoller) :
    Option (List (List DocumentResult)) :=
  (st.jobs.get? p.token).map (fun j => analyzeResults j.docs j.actions)

/-! ## Concrete values used by witnesses and counterexamples -/

/-- The encoder produced by the constructor when group_name is omitted. -/
def c1Encoder : AvroEncoder :=
  { schemaGroup := none, autoRegister := false,
    resolveFunc := .getSchemaPropertiesFunc }

/-- An empty schema-id cache at the source maxsize. -/
def emptySchemaIdCache : LruCache (String × String) String :=
  { entries := [], maxsize := avroCacheMaxsize }

/-- An empty schema-definition cache at the source maxsize. -/
def emptySchemaCache : LruCache String String :=
  { entries := [], maxsize := avroCacheMaxsize }

/-- A fresh registry with no registered schemas and no requests made. -/
def registryState0 : RegistryState :=
  { registered := [], nextId := 0, callCount := 0 }

/-- A validate_schema stand-in that accepts every schema and returns it as
its own fullname. -/
def okValidate : String → Except PyError String := fun s => .ok s

/-- An Apache Avro encoding stand-in. -/
def idAvroEncode : String → String := fun s => s

/-- An encoder constructed with auto_register true. -/
def c7Encoder : AvroEncoder :=
  { schemaGroup := some "g", autoRegister := true,
    resolveFunc := .registerSchemaFunc }

/-- The schema-id cache after the first (miss) call of the C8 witness. -/
def c8Cache1 : LruCache (String × String) String :=
  emptySchemaIdCache.insert ("n", "s") "0"

/-- The registry state after the first (miss) call of the C8 witness. -/
def c8St1 : RegistryState :=
  (registerSchema registryState0 "g" "n" "s").2

/-- The schema-definition cache after the first (miss) call of the C8
witness decode side. -/
def c8DCache1 : LruCache String String :=
  emptySchemaCache.insert "0" "s"

/-- The registry state after the decode-side first call of the C8
witness. -/
def c8DSt1 : RegistryState :=
  (getSchemaById c8St1 "0").2

/-- Documents of the continuation-token scenario (one with empty text). -/
def c4Docs : List TADocument :=
  [{ id := "1", text := "hello", language := some "en" },
   { id := "3", text := "", language := none }]

/-- Actions of the continuation-token scenario. -/
def c4Acts : List TAAction :=
  [TAAction.recognizeEntities, TAAction.extractKeyPhrases]

/-- Service state after submitting the C4 job. -/
def c4St1 : TAServiceState :=
  { jobs := [{ docs := c4Docs, actions := c4Acts }] }

/-- A concrete request heap cell for the C9 witness. -/
def c9Request : HttpRequest :=
  { method := "GET", url := "/subscriptions", headers := [], body := "" }

/-- A concrete management client for the C9 witness. -/
def c9Client : AIMClient :=
  { formatUrl := fun s => "https://management.azure.com" ++ s
    pipelineSend := fun _ => 200 }

/-! # Theorems -/

/-- C1 counterexample: the claim says AvroEncoder.encode must not raise a
locally-originated TypeError when the encoder was constructed without
group_name; but the encoder constructed with group_name omitted raises
exactly such a TypeError from encode, before any registry request is
attempted (the registry call count stays 0). -/
theorem C1_encode_local_type_error_counterexample :
    AvroEncoder.init { client := some (), groupName := none, autoRegister := none }
        = .ok c1Encoder
    ∧ (c1Encoder.encode okValidate idAvroEncode "somecontent" "schemastr"
        emptySchemaIdCache registryState0).1
        = .error (.typeError "group_name in constructor cannot be None, if encoding.")
    ∧ (PyError.typeError "group_name in constructor cannot be None, if encoding.").isLocalOrigin
        = true
    ∧ (c1Encoder.encode okValidate idAvroEncode "somecontent" "schemastr"
        emptySchemaIdCache registryState0).2.2.callCount = 0 :=
  ⟨rfl, rfl, rfl, rfl⟩

/-- C1 amended: exceptions surfaced by the client code are the typed
pipeline exceptions or light wraps of them, except that AvroEncoder.encode
raises a locally-originated TypeError, before any request is attempted,
whenever the encoder was constructed without a (non-empty) group_name: in
that case encode returns exactly the TypeError and leaves the cache and
the registry state (hence the request count) untouched. -/
theorem C1_amended_encode_requires_group_name :
    ∀ (enc : AvroEncoder) (validate : String → Except PyError String)
      (avroEncode : String → String) (content schema : String)
      (cache : LruCache (String × String) String) (st : RegistryState),
    optStrFalsy enc.schemaGroup = true →
    enc.encode validate avroEncode content schema cache st
      = (.error (.typeError "group_name in constructor cannot be None, if encoding."),
         cache, st) := by
  intro enc validate avroEncode content schema cache st h
  simp [AvroEncoder.encode, h]

/-- C1 witness: the amended statement applied to the concrete encoder
constructed without group_name. -/
theorem C1_amended_witness :
    c1Encoder.encode okValidate idAvroEncode "somecontent" "schemastr"
        emptySchemaIdCache registryState0
      = (.error (.typeError "group_name in constructor cannot be None, if encoding."),
         emptySchemaIdCache, registryState0) :=
  C1_amended_encode_requires_group_name c1Encoder okValidate idAvroEncode
    "somecontent" "schemastr" emptySchemaIdCache registryState0 rfl

/-- C2: every public operation of the async datalake FileSystemClient
equals the delegation to the underlying ContainerClient or generated REST
operation with the same arguments, composed only with the model conversion
of the result; no operation adds batching, retry, polling, pagination or
leasing logic of its own. -/
theorem C2_operations_delegate :
    ∀ (c : FileSystemClient) (metadata : Option Metadata)
      (pa : Option PublicAccess) (si : SignedIdentifiers)
      (path : Option String) (recursive : Bool) (maxResults : Option Nat)
      (kwargs : Kwargs) (pk : PagedKwargs),
    c.create_file_system metadata pa kwargs = createFileSystemSpec c metadata pa kwargs
    ∧ c.delete_file_system kwargs = deleteFileSystemSpec c kwargs
    ∧ c.fs_exists kwargs = existsSpec c kwargs
    ∧ c.get_file_system_properties kwargs = getFileSystemPropertiesSpec c kwargs
    ∧ c.set_file_system_metadata metadata kwargs = setFileSystemMetadataSpec c metadata kwargs
    ∧ c.set_file_system_access_policy si pa kwargs = setFileSystemAccessPolicySpec c si pa kwargs
    ∧ c.get_file_system_access_policy kwargs = getFileSystemAccessPolicySpec c kwargs
    ∧ c.get_paths path recursive maxResults pk = getPathsSpec c path recursive maxResults pk
    ∧ c.list_deleted_paths pk = listDeletedPathsSpec c pk := by
  intro c metadata pa si path recursive maxResults kwargs pk
  refine ⟨rfl, rfl, rfl, ?_, rfl, rfl, ?_, rfl, rfl⟩
  · cases h : c.containerClient.get_container_properties kwargs <;>
      simp [FileSystemClient.get_file_system_properties,
        getFileSystemPropertiesSpec, h, Except.map]
  · cases h : c.containerClient.get_container_access_policy kwargs <;>
      simp [FileSystemClient.get_file_system_access_policy,
        getFileSystemAccessPolicySpec, h, Except.map]

/-- C3: construction of the async datalake FileSystemClient installs the
caller-supplied retry_policy unchanged when one is given and an
ExponentialRetry built from the kwargs otherwise, and applies the api
version resolved by get_api_version from the keyword arguments to the
config.version of both internal generated REST clients. -/
theorem C3_init_configuration :
    ∀ (containerOps : ContainerClientOps)
      (f1 f2 : GeneratedFileSystemOps) (tr : Transport)
      (accountUrl fsName : String) (credential : Option String)
      (kwargs : InitKwargs),
    Policy.retry (match kwargs.retry_policy with
        | some r => r
        | none => RetryPolicy.exponentialRetry kwargs.retryConfig)
      ∈ (FileSystemClient.init containerOps f1 f2 tr accountUrl fsName
          credential kwargs).pipeline.policies
    ∧ (FileSystemClient.init containerOps f1 f2 tr accountUrl fsName
        credential kwargs).client.configVersion = get_api_version kwargs
    ∧ (FileSystemClient.init containerOps f1 f2 tr accountUrl fsName
        credential kwargs).datalakeClientForBlobOperation.configVersion
        = get_api_version kwargs := by
  intro containerOps f1 f2 tr accountUrl fsName credential kwargs
  refine ⟨?_, rfl, rfl⟩
  cases h : kwargs.retry_policy <;>
    simp [FileSystemClient.init, baseClientInit, h]

/-- C10: get_file_client and get_directory_client perform no service
request, resolve the target name through the .get accessor when the input
is a properties object and through str otherwise, and the child client is
built from the parent URL, file system name, credential, api version,
policy stages, and a transport wrapper over the parent pipeline
transport. -/
theorem C10_child_clients :
    ∀ (c : FileSystemClient) (input : PathInput),
    ((c.get_file_client input).2 = []
      ∧ (c.get_file_client input).1.targetName
          = (match input with | .props n => n | .str s => s)
      ∧ (c.get_file_client input).1.url = c.url
      ∧ (c.get_file_client input).1.fileSystemName = c.fileSystemName
      ∧ (c.get_file_client input).1.credential = c.rawCredential
      ∧ (c.get_file_client input).1.apiVersion = c.apiVersion
      ∧ (c.get_file_client input).1.pipeline.transport.core
          = c.pipeline.transport.core
      ∧ (c.get_file_client input).1.pipeline.policies = c.pipeline.policies)
    ∧ ((c.get_directory_client input).2 = []
      ∧ (c.get_directory_client input).1.targetName
          = (match input with | .props n => n | .str s => s)
      ∧ (c.get_directory_client input).1.url = c.url
      ∧ (c.get_directory_client input).1.fileSystemName = c.fileSystemName
      ∧ (c.get_directory_client input).1.credential = c.rawCredential
      ∧ (c.get_directory_client input).1.apiVersion = c.apiVersion
      ∧ (c.get_directory_client input).1.pipeline.transport.core
          = c.pipeline.transport.core
      ∧ (c.get_directory_client input).1.pipeline.policies = c.pipeline.policies) := by
  intro c input
  cases input <;>
    exact ⟨⟨rfl, rfl, rfl, rfl, rfl, rfl, rfl, rfl⟩,
           ⟨rfl, rfl, rfl, rfl, rfl, rfl, rfl, rfl⟩⟩

/-- Inversion of a successful begin_analyze_actions submission: the poller
token names the appended job. -/
theorem beginAnalyzeActions_ok (st : TAServiceState) (docs : List TADocument)
    (acts : List TAAction) (p1 : AnalyzePoller) (st1 : TAServiceState)
    (h : beginAnalyzeActions st docs acts = .ok (p1, st1)) :
    p1 = { token := st.jobs.length }
      ∧ st1 = { jobs := st.jobs ++ [{ docs := docs, actions := acts }] } := by
  by_cases hl : docs.length > maxDocumentsPerRequest
  · simp [beginAnalyzeActions, hl] at h
  · simp [beginAnalyzeActions, hl] at h
    exact ⟨h.1.symm, h.2.symm⟩

/-- C4: resuming an analyze-actions job from the continuation token of its
first poller yields a second poller with the same completed results: the
results of the submitted job, one list per document with per-document
error status preserved (an empty-text document yields is_error results). -/
theorem C4_continuation_token_same_results :
    ∀ (st : TAServiceState) (docs : List TADocument) (acts : List TAAction)
      (p1 : AnalyzePoller) (st1 : TAServiceState),
    beginAnalyzeActions st docs acts = .ok (p1, st1) →
    pollerResult st1 (beginAnalyzeActionsFromToken p1.token) = pollerResult st1 p1
    ∧ pollerResult st1 p1 = some (analyzeResults docs acts)
    ∧ (∀ (i : Nat) (d : TADocument) (row : List DocumentResult),
        docs.get? i = some d → d.text = "" →
        (analyzeResults docs acts).get? i = some row →
        ∀ r ∈ row, r.isError = true) := by
  intro st docs acts p1 st1 h
  obtain ⟨hp, hs⟩ := beginAnalyzeActions_ok st docs acts p1 st1 h
  subst hp; subst hs
  refine ⟨rfl, ?_, ?_⟩
  · simp [pollerResult, List.get?_concat_length, analyzeResults]
  · intro i d row hd htext hrow r hr
    rw [analyzeResults, List.get?_map, hd] at hrow
    obtain rfl : row = acts.map (runDocAction d) :=
      (Option.some_inj.1 hrow).symm
    obtain ⟨a, _, rfl⟩ := List.mem_map.1 hr
    simp [runDocAction, htext]

/-- C4 witness: the theorem at the concrete continuation-token scenario of
the test (two documents, one with empty text, two actions). -/
theorem C4_witness :
    pollerResult c4St1 (beginAnalyzeActionsFromToken 0) = pollerResult c4St1 { token := 0 }
    ∧ pollerResult c4St1 { token := 0 } = some (analyzeResults c4Docs c4Acts)
    ∧ ∀ r ∈ c4Acts.map (runDocAction { id := "3", text := "", language := none }),
        r.isError = true := by
  have h := C4_continuation_token_same_results { jobs := [] } c4Docs c4Acts
      { token := 0 } c4St1 rfl
  exact ⟨h.1, h.2.1, h.2.2 1 { id := "3", text := "", language := none }
    (c4Acts.map (runDocAction { id := "3", text := "", language := none }))
    (by decide) rfl rfl⟩

/-- C5: the completed job result has one list per input document in
submission order carrying the document id, and each list has one result
per requested action in the order the actions were supplied. -/
theorem C5_result_order :
    ∀ (st : TAServiceState) (docs : List TADocument) (acts : List TAAction)
      (p1 : AnalyzePoller) (st1 : TAServiceState),
    beginAnalyzeActions st docs acts = .ok (p1, st1) →
    pollerResult st1 p1 = some (analyzeResults docs acts)
    ∧ (analyzeResults docs acts).length = docs.length
    ∧ (∀ (i : Nat) (d : TADocument), docs.get? i = some d →
        ∃ row, (analyzeResults docs acts).get? i = some row
          ∧ row.length = acts.length
          ∧ (∀ (j : Nat) (a : TAAction), acts.get? j = some a →
              ∃ r, row.get? j = some r ∧ r.id = d.id
                ∧ (r.isError = false → r.actionType = some a))) := by
  intro st docs acts p1 st1 h
  obtain ⟨hp, hs⟩ := beginAnalyzeActions_ok st docs acts p1 st1 h
  subst hp; subst hs
  refine ⟨?_, by simp [analyzeResults], ?_⟩
  · simp [pollerResult, List.get?_concat_length, analyzeResults]
  · intro i d hd
    refine ⟨acts.map (runDocAction d), ?_, by simp, ?_⟩
    · rw [analyzeResults, List.get?_map, hd]; rfl
    · intro j a ha
      refine ⟨runDocAction d a, ?_, ?_, ?_⟩
      · rw [List.get?_map, ha]; rfl
      · by_cases ht : d.text = "" <;> simp [runDocAction, ht]
      · intro hne
        by_cases ht : d.text = "" <;> simp [runDocAction, ht] at hne ⊢

/-- C5 witness: the theorem at the concrete two-document scenario,
projected to the first document and second action. -/
theorem C5_witness :
    pollerResult c4St1 { token := 0 } = some (analyzeResults c4Docs c4Acts)
    ∧ (analyzeResults c4Docs c4Acts).length = c4Docs.length
    ∧ ∃ r, (c4Acts.map (runDocAction { id := "1", text := "hello", language := some "en" })).get? 1
          = some r ∧ r.id = "1" ∧ (r.isError = false → r.actionType = some TAAction.extractKeyPhrases) := by
  have h := C5_result_order { jobs := [] } c4Docs c4Acts { token := 0 } c4St1 rfl
  obtain ⟨row, hrow, _, hinner⟩ :=
    h.2.2 0 { id := "1", text := "hello", language := some "en" } (by decide)
  have hrw : row = c4Acts.map (runDocAction { id := "1", text := "hello", language := some "en" }) := by
    have : (analyzeResults c4Docs c4Acts).get? 0
        = some (c4Acts.map (runDocAction { id := "1", text := "hello", language := some "en" })) := by decide
    exact Option.some_inj.1 (hrow.symm.trans this)
  exact ⟨h.1, h.2.1, hrw ▸ hinner 1 TAAction.extractKeyPhrases (by decide)⟩

/-- C6: a begin_analyze_actions request with more than the 25-document
maximum fails with a 400 HttpResponseError (here at 26 copies of any
document), a request with exactly 25 documents succeeds, and in general a
submission succeeds exactly when the document count is within the
maximum. -/
theorem C6_max_documents :
    ∀ (st : TAServiceState) (acts : List TAAction) (d : TADocument),
    beginAnalyzeActions st (List.replicate 26 d) acts
      = .error (.httpResponseError 400 "Batch request contains too many records.")
    ∧ (∃ p st1, beginAnalyzeActions st (List.replicate 25 d) acts = .ok (p, st1))
    ∧ (∀ docs, (∃ p st1, beginAnalyzeActions st docs acts = .ok (p, st1))
        ↔ docs.length ≤ maxDocumentsPerRequest) := by
  intro st acts d
  refine ⟨?_, ?_, ?_⟩
  · simp [beginAnalyzeActions, maxDocumentsPerRequest]
  · exact ⟨{ token := st.jobs.length },
      { jobs := st.jobs ++ [{ docs := List.replicate 25 d, actions := acts }] },
      by simp [beginAnalyzeActions, maxDocumentsPerRequest]⟩
  · intro docs
    constructor
    · rintro ⟨p, st1, hok⟩
      by_contra hgt
      simp [beginAnalyzeActions, Nat.lt_of_not_le hgt] at hok
    · intro hle
      exact ⟨{ token := st.jobs.length },
        { jobs := st.jobs ++ [{ docs := docs, actions := acts }] },
        by simp [beginAnalyzeActions, Nat.not_lt.2 hle]⟩

/-- C7: the schema-resolution function used by encode is fixed at
construction by the auto_register option: every lookup goes through
register_schema when auto_register is true and through
get_schema_properties otherwise; get_schema_properties fails on a schema
that has not been pre-registered, while register_schema always succeeds
and leaves the schema registered. -/
theorem C7_resolution_fixed_at_construction :
    ∀ (kwargs : EncoderKwargs) (enc : AvroEncoder),
    AvroEncoder.init kwargs = .ok enc →
    (∀ (st : RegistryState) (g n s : String),
        enc.getSchemaIdRaw g st n s
          = (if kwargs.autoRegister.getD false then registerSchema st g n s
             else getSchemaProperties st g n s))
    ∧ (∀ (st : RegistryState) (g n s : String), st.find g n s = none →
        getSchemaProperties st g n s
          = (.error (.httpResponseError 404 "Item Not Found"),
             { st with callCount := st.callCount + 1 }))
    ∧ (∀ (st : RegistryState) (g n s : String),
        ∃ sid st1, registerSchema st g n s = (.ok sid, st1)
          ∧ st1.find g n s = some sid) := by
  intro kwargs enc h
  refine ⟨?_, ?_, ?_⟩
  · intro st g n s
    cases hc : kwargs.client with
    | none => simp [AvroEncoder.init, hc] at h
    | some u =>
        simp [AvroEncoder.init, hc] at h
        cases hb : kwargs.autoRegister.getD false <;>
          simp [AvroEncoder.getSchemaIdRaw, SchemaResolveFunc.apply, ← h, hb]
  · intro st g n s hf
    simp [getSchemaProperties, hf]
  · intro st g n s
    cases hf : st.find g n s with
    | some sid =>
        refine ⟨sid, { st with callCount := st.callCount + 1 }, ?_, ?_⟩
        · simp [registerSchema, hf]
        · exact hf
    | none =>
        refine ⟨toString st.nextId,
          { registered := ((g, n, s), toString st.nextId) :: st.registered,
            nextId := st.nextId + 1, callCount := st.callCount + 1 }, ?_, ?_⟩
        · simp [registerSchema, hf]
        · simp [RegistryState.find, List.find?]

/-- C7 witness: the theorem at a concrete auto_register=true construction,
with a fresh registry state. -/
theorem C7_witness :
    c7Encoder.getSchemaIdRaw "g" registryState0 "n" "s"
      = registerSchema registryState0 "g" "n" "s"
    ∧ getSchemaProperties registryState0 "g" "n" "s"
      = (.error (.httpResponseError 404 "Item Not Found"),
         { registryState0 with callCount := 1 })
    ∧ ∃ sid st1, registerSchema registryState0 "g" "n" "s" = (.ok sid, st1)
        ∧ st1.find "g" "n" "s" = some sid := by
  have h := C7_resolution_fixed_at_construction
      { client := some (), groupName := some "g", autoRegister := some true }
      c7Encoder rfl
  exact ⟨h.1 registryState0 "g" "n" "s",
         h.2.1 registryState0 "g" "n" "s" rfl,
         h.2.2 registryState0 "g" "n" "s"⟩

/-- A cache hit after touch: the touched key sits at the front. -/
theorem LruCache.find_touch {κ ν : Type} [DecidableEq κ]
    (c : LruCache κ ν) (k : κ) (v : ν) : (c.touch k v).find k = some v := by
  simp [LruCache.find, LruCache.touch, List.find?]

/-- A cache hit after insert, provided the cache capacity is positive. -/
theorem LruCache.find_insert {κ ν : Type} [DecidableEq κ]
    (c : LruCache κ ν) (k : κ) (v : ν) (h : 0 < c.maxsize) :
    (c.insert k v).find k = some v := by
  rcases hms : c.maxsize with _ | m
  · omega
  · simp [LruCache.find, LruCache.insert, hms, List.take_succ_cons, List.find?]

/-- C8: schema-registry lookups are idempotent through the LRU cache. A
call of _get_schema_id on a state where the (schema name, schema string)
pair is cached returns the cached id without touching the registry; after
a first successful call of _get_schema_id, the repeated call with the same
arguments returns the same id and leaves the registry state (hence its
request count) unchanged; and likewise for _get_schema with a schema
id. -/
theorem C8_lru_cache_idempotent :
    (∀ (enc : AvroEncoder) (group : String)
       (cache : LruCache (String × String) String) (st : RegistryState)
       (name defn sid : String),
       cache.find (name, defn) = some sid →
       enc.getSchemaId group cache st name defn
         = (.ok sid, cache.touch (name, defn) sid, st))
    ∧ (∀ (enc : AvroEncoder) (group : String)
       (cache cache1 : LruCache (String × String) String)
       (st st1 : RegistryState) (name defn sid : String),
       cache.maxsize = avroCacheMaxsize →
       enc.getSchemaId group cache st name defn = (.ok sid, cache1, st1) →
       enc.getSchemaId group cache1 st1 name defn
         = (.ok sid, cache1.touch (name, defn) sid, st1))
    ∧ (∀ (enc : AvroEncoder) (cache cache1 : LruCache String String)
       (st st1 : RegistryState) (sid defn : String),
       cache.maxsize = avroCacheMaxsize →
       enc.getSchema cache st sid = (.ok defn, cache1, st1) →
       enc.getSchema cache1 st1 sid = (.ok defn, cache1.touch sid defn, st1)) := by
  refine ⟨?_, ?_, ?_⟩
  · intro enc group cache st name defn sid hfind
    simp [AvroEncoder.getSchemaId, hfind]
  · intro enc group cache cache1 st st1 name defn sid hmax h
    cases hfind : cache.find (name, defn) with
    | some v =>
        simp [AvroEncoder.getSchemaId, hfind] at h
        obtain ⟨rfl, rfl, rfl⟩ := h
        simp [AvroEncoder.getSchemaId, LruCache.find_touch]
    | none =>
        rcases hraw : enc.getSchemaIdRaw group st name defn with ⟨r, st2⟩
        cases r with
        | error e => simp [AvroEncoder.getSchemaId, hfind, hraw] at h
        | ok v =>
            simp [AvroEncoder.getSchemaId, hfind, hraw] at h
            obtain ⟨rfl, rfl, rfl⟩ := h
            have hpos : 0 < cache.maxsize := by
              rw [hmax]; simp [avroCacheMaxsize]
            have hins := LruCache.find_insert cache (name, defn) v hpos
            simp [AvroEncoder.getSchemaId, hins]
  · intro enc cache cache1 st st1 sid defn hmax h
    cases hfind : cache.find sid with
    | some v =>
        simp [AvroEncoder.getSchema, hfind] at h
        obtain ⟨rfl, rfl, rfl⟩ := h
        simp [AvroEncoder.getSchema, LruCache.find_touch]
    | none =>
        rcases hraw : getSchemaById st sid with ⟨r, st2⟩
        cases r with
        | error e => simp [AvroEncoder.getSchema, hfind, hraw] at h
        | ok v =>
            simp [AvroEncoder.getSchema, hfind, hraw] at h
            obtain ⟨rfl, rfl, rfl⟩ := h
            have hpos : 0 < cache.maxsize := by
              rw [hmax]; simp [avroCacheMaxsize]
            have hins := LruCache.find_insert cache sid v hpos
            simp [AvroEncoder.getSchema, hins]

/-- C8 witness: after a concrete first call that registered schema s under
id 0, the repeated encode-side and decode-side lookups return the same
values and leave the registry state unchanged. -/
theorem C8_witness :
    c7Encoder.getSchemaId "g" c8Cache1 c8St1 "n" "s"
      = (.ok "0", c8Cache1.touch ("n", "s") "0", c8St1)
    ∧ c7Encoder.getSchema c8DCache1 c8DSt1 "0"
      = (.ok "s", c8DCache1.touch "0" "s", c8DSt1) := by
  refine ⟨?_, ?_⟩
  · exact C8_lru_cache_idempotent.2.1 c7Encoder "g" emptySchemaIdCache c8Cache1
      registryState0 c8St1 "n" "s" "0" rfl rfl
  · exact C8_lru_cache_idempotent.2.2 c7Encoder emptySchemaCache c8DCache1
      c8St1 c8DSt1 "0" "s" rfl rfl

/-- C9: _send_request leaves the request object of the caller unchanged: after
the call the heap cell of the original request holds exactly its prior
value, while the freshly allocated copy carries the formatted URL and is
what goes through the pipeline. -/
theorem C9_send_request_preserves_caller_request :
    ∀ (c : AIMClient) (hp : RequestHeap) (addr : Nat) (r : HttpRequest),
    hp.get? addr = some r →
    (c.send_request_op hp addr).1.get? addr = some r
    ∧ (c.send_request_op hp addr).1.get? (c.send_request_op hp addr).2.2
        = some { r with url := c.formatUrl r.url }
    ∧ (c.send_request_op hp addr).2.1
        = c.pipelineSend { r with url := c.formatUrl r.url } := by
  intro c hp addr r hr
  have hlt : addr < hp.length := by
    by_contra h2
    rw [List.get?_eq_none.2 (Nat.le_of_not_lt h2)] at hr
    cases hr
  have hrE : hp[addr]? = some r := by
    rw [← List.get?_eq_getElem?]; exact hr
  have hgetD : hp.getD addr default = r := by
    simp [List.getD, hrE]
  have hcopyE : (hp ++ [r])[hp.length]? = some r := by
    rw [← List.get?_eq_getElem?]; exact List.get?_concat_length hp r
  have hcopy : (hp ++ [r]).getD hp.length default = r := by
    simp [List.getD, hcopyE]
  have hlen : hp.length < (hp ++ [r]).length := by
    simp
  have hset : ((hp ++ [r]).set hp.length { r with url := c.formatUrl r.url }).get? hp.length
      = some { r with url := c.formatUrl r.url } :=
    List.get?_set_eq_of_lt _ hlen
  have hsetE : ((hp ++ [r]).set hp.length { r with url := c.formatUrl r.url })[hp.length]?
      = some { r with url := c.formatUrl r.url } := by
    rw [← List.get?_eq_getElem?]; exact hset
  have hgetD2 : ((hp ++ [r]).set hp.length { r with url := c.formatUrl r.url }).getD
      hp.length default = { r with url := c.formatUrl r.url } := by
    simp [List.getD, hsetE]
  have key : c.send_request_op hp addr
      = ((hp ++ [r]).set hp.length { r with url := c.formatUrl r.url },
         c.pipelineSend { r with url := c.formatUrl r.url }, hp.length) := by
    simp [AIMClient.send_request_op, deepcopyRequest, setRequestUrl, hgetD,
      hcopy, hgetD2, hrE, hcopyE, hsetE]
  rw [key]
  refine ⟨?_, hset, rfl⟩
  rw [List.get?_set_ne _ _ (ne_of_gt hlt), List.get?_append hlt, hr]

/-- C9 witness: the theorem at a concrete one-request heap. -/
theorem C9_witness :
    (c9Client.send_request_op [c9Request] 0).1.get? 0 = some c9Request
    ∧ (c9Client.send_request_op [c9Request] 0).1.get?
        (c9Client.send_request_op [c9Request] 0).2.2
        = some { c9Request with url := c9Client.formatUrl c9Request.url }
    ∧ (c9Client.send_request_op [c9Request] 0).2.1
        = c9Client.pipelineSend { c9Request with url := c9Client.formatUrl c9Request.url } :=
  C9_send_request_preserves_caller_request c9Client [c9Request] 0 c9Request rfl

end AzureSDK
